import Mathlib

/-!
Verification of the OpenGlass companion application core.

Shallow embedding of:
- the chunked photo reassembler `onChunk` and the bounded photo window
  (src/sources/app/DeviceView.tsx),
- the session/agent orchestration `Agent.answer` and
  `Agent.checkModelConfiguration` (src/sources/agent/Agent.ts).

Bytes are modelled as `Nat` (their values are never inspected by the
reassembly logic); `Uint8Array` buffers become `List Nat`.  Network calls
made by the backend dispatch block are opaque: the dispatch outcome is a
parameter of the model.
-/

set_option linter.unusedVariables false

namespace OpenGlass

/-! ## Chunk reassembler (DeviceView.tsx, `onChunk`, lines 36-80)

The closure state of `onChunk` is `previousChunk : number` (−1 = idle)
and `buffer : Uint8Array`.  The function receives `id : number | null`
(null is the END marker decoded from the wire bytes 0xFF 0xFF) and the
payload `data`.  On a completed transfer the accumulated buffer is handed
to `rotateImage` and then pushed into the photo window; the emission
modelled here is the buffer handed over (rotation is an opaque external
transform, out of scope per the spec). -/

/-- A reassembled (or raw) image buffer. -/
abbrev Photo := List Nat

/-- The closure state of `onChunk`: `previousChunk === -1` means idle. -/
structure ReassemblerState where
  previousChunk : Int
  buffer : List Nat
deriving Repr, DecidableEq

/-- One step of the reassembler, translated line by line from
DeviceView.tsx lines 36-80.  Returns the new state and the emitted photo,
if any.  Note that on END the code sets `previousChunk = -1` but does not
clear `buffer` (the next START clears it), and that a mismatched data
chunk clears both. -/
def onChunk (st : ReassemblerState) (id : Option Nat) (data : List Nat) :
    ReassemblerState × Option (List Nat) :=
  if st.previousChunk = -1 then
    match id with
    | none => (st, none)
    | some i =>
      if i = 0 then
        -- start: previousChunk := 0, buffer cleared, then data appended
        (⟨0, [] ++ data⟩, none)
      else
        -- unexpected first chunk id: warn and drop
        (st, none)
  else
    match id with
    | none =>
      if st.buffer = [] then
        -- photo end received but buffer is empty: warn, back to idle
        (⟨-1, st.buffer⟩, none)
      else
        -- photo received: emit the buffer, back to idle (buffer kept)
        (⟨-1, st.buffer⟩, some st.buffer)
    | some i =>
      if (i : Int) ≠ st.previousChunk + 1 then
        -- invalid chunk: drop current photo buffer, back to idle
        (⟨-1, []⟩, none)
      else
        -- in-sequence chunk: advance and append data
        (⟨(i : Int), st.buffer ++ data⟩, none)

/-- A decoded notification record: a data chunk with its 16-bit sequence
id, or the END marker (the dispatcher calls `onChunk(null, empty)` for
END). -/
inductive Chunk where
  | data (id : Nat) (payload : List Nat)
  | endMark
deriving Repr, DecidableEq

/-- Feed one decoded record to the reassembler. -/
def feed (st : ReassemblerState) : Chunk → ReassemblerState × Option (List Nat)
  | .data i p => onChunk st (some i) p
  | .endMark => onChunk st none []

/-- Feed a whole list of records, collecting every emitted photo in
order. -/
def runChunks : ReassemblerState → List Chunk → ReassemblerState × List (List Nat)
  | st, [] => (st, [])
  | st, c :: cs =>
    let r := feed st c
    let rest := runChunks r.1 cs
    (rest.1, r.2.toList ++ rest.2)

/-- Data records with consecutive ids starting at `n`, one per payload. -/
def dataChunks : Nat → List (List Nat) → List Chunk
  | _, [] => []
  | n, p :: ps => Chunk.data n p :: dataChunks (n + 1) ps

/-- A whole transfer as the claims describe it: a START record with
sequence id 0, data records whose ids increase by exactly 1 (one per
payload in `ps`), then one END record. -/
def transferChunks (ps : List (List Nat)) : List Chunk :=
  dataChunks 0 ps ++ [Chunk.endMark]

/-! ## Bounded photo window (DeviceView.tsx, `usePhotos`, lines 55-64)

`setPhotos((p) => [...p.slice(-9), rotated])`: keep the last nine photos
and append the new one. -/

/-- Push a photo into the window: `[...p.slice(-9), x]`.
`slice(-9)` keeps the last `min 9 p.length` elements, i.e.
`p.drop (p.length - 9)` with truncated subtraction. -/
def pushPhoto (p : List Photo) (x : Photo) : List Photo :=
  p.drop (p.length - 9) ++ [x]

/-! ## Session / agent (Agent.ts) -/

/-- The selectable backend variants (Agent.ts line 9). -/
inductive AIModel where
  | openaiVision
  | ollamaMoondream
  | groqLlama
deriving Repr, DecidableEq

/-- The string value of the model enum, used in error messages. -/
def modelName : AIModel → String
  | .openaiVision => "openai-vision"
  | .ollamaMoondream => "ollama-moondream"
  | .groqLlama => "groq-llama"

/-- The API keys imported from the environment (`keys.openai`,
`keys.groq`); `none` models an absent key. -/
structure Keys where
  openai : Option String
  groq : Option String

/-- The JS test `!k || k.trim() === ''` for a possibly-absent key. -/
def keyMissing : Option String → Bool
  | none => true
  | some s => s.trim == ""

/-- Result of `checkModelConfiguration` (Agent.ts lines 53-79). -/
structure ConfigCheck where
  configured : Bool
  errorMessage : Option String
deriving Repr, DecidableEq

def openaiKeyMsg : String :=
  "OpenAI API key not configured. Please add EXPO_PUBLIC_OPENAI_API_KEY to your .env file."

def groqKeyMsg : String :=
  "Groq API key not configured. Please add EXPO_PUBLIC_GROQ_API_KEY to your .env file."

/-- Agent.ts lines 53-79: the per-variant credential check.  The Ollama
variant runs locally and always reports configured. -/
def checkModelConfiguration (keys : Keys) (m : AIModel) : ConfigCheck :=
  match m with
  | .openaiVision =>
    if keyMissing keys.openai then ⟨false, some openaiKeyMsg⟩ else ⟨true, none⟩
  | .ollamaMoondream => ⟨true, none⟩
  | .groqLlama =>
    if keyMissing keys.groq then ⟨false, some groqKeyMsg⟩ else ⟨true, none⟩

/-- The observable `#state` of the agent (Agent.ts lines 11-17). -/
structure AgentState where
  lastDescription : Option String
  answer : Option String
  loading : Bool
  error : Option String
  selectedModel : AIModel
deriving Repr, DecidableEq

/-- `pat` starts the character list `hay`. -/
def startsWithL : List Char → List Char → Bool
  | [], _ => true
  | _ :: _, [] => false
  | a :: ps, b :: hs => a == b && startsWithL ps hs

/-- `pat` occurs somewhere inside `hay`. -/
def hasSubL (pat : List Char) : List Char → Bool
  | [] => startsWithL pat []
  | c :: rest => startsWithL pat (c :: rest) || hasSubL pat rest

/-- JS `s.includes(pat)`. -/
def strContains (s pat : String) : Bool :=
  hasSubL pat.toList s.toList

def noPhotosMsg : String :=
  "I don't see any photos yet. Please take some photos first and then ask your question."

/-- Agent.ts lines 205-227: map a thrown dispatch error to the user-facing
message.  `err = some msg` is `error instanceof Error` with that message;
`err = none` is a non-Error throw. -/
def classifyError (m : AIModel) (err : Option String) : String :=
  let base := "Failed to get response from " ++ modelName m ++ ". "
  match err with
  | some msg =>
    if strContains msg "401" || strContains msg "Invalid" then
      base ++ "Invalid API key. Please check your configuration."
    else if strContains msg "429" then
      base ++ "Rate limit exceeded. Please try again later."
    else if strContains msg "402" then
      base ++ "Billing issue. Please check your account credits."
    else if strContains msg "Ollama" then
      msg
    else if strContains msg "fetch" || strContains msg "network" then
      "Network error. Please check your internet connection."
    else
      base ++ msg
  | none => base ++ "Please check your configuration and try again."

/-- Outcome of the opaque backend dispatch block (Agent.ts lines
115-199): the block either produces an answer string or throws. -/
inductive DispatchOutcome where
  | success (answer : String)
  | failure (err : Option String)

/-- The observable effect of one `Agent.answer` call: the successive
snapshots of `#state` after each assignment, whether the backend dispatch
block was entered, and the final state. -/
structure AnswerExec where
  trace : List AgentState
  dispatched : Bool
  final : AgentState

/-- Agent.ts lines 81-237, `Agent.answer`, state effects in program
order.  Configuration is checked first; the config-failure path sets
`error` and clears `answer` and returns (before the loading guard).  If
already loading the call returns with no state change.  Otherwise
`loading := true`, `error := undefined` (note: `answer` is not cleared
here), then under the lock: the zero-photos advisory, or the opaque
backend dispatch whose outcome is the `outcome` parameter; finally
`loading := false`. -/
def answerRun (keys : Keys) (photos : List Photo) (s : AgentState)
    (outcome : DispatchOutcome) : AnswerExec :=
  let config := checkModelConfiguration keys s.selectedModel
  if config.configured = false then
    let s1 := { s with error := config.errorMessage }
    let s2 := { s1 with answer := none }
    ⟨[s1, s2], false, s2⟩
  else if s.loading then
    ⟨[], false, s⟩
  else
    let s1 := { s with loading := true }
    let s2 := { s1 with error := none }
    if photos.length = 0 then
      let s3 := { s2 with answer := some noPhotosMsg }
      let s4 := { s3 with error := none }
      let s5 := { s4 with loading := false }
      ⟨[s1, s2, s3, s4, s5], false, s5⟩
    else
      match outcome with
      | .success a =>
        let s3 := { s2 with answer := some a }
        let s4 := { s3 with error := none }
        let s5 := { s4 with loading := false }
        ⟨[s1, s2, s3, s4, s5], true, s5⟩
      | .failure e =>
        let s3 := { s2 with error := some (classifyError s.selectedModel e) }
        let s4 := { s3 with answer := none }
        let s5 := { s4 with loading := false }
        ⟨[s1, s2, s3, s4, s5], true, s5⟩

/-! ## Reassembler lemmas -/

theorem runChunks_append (l₁ l₂ : List Chunk) :
    ∀ st : ReassemblerState,
      runChunks st (l₁ ++ l₂) =
        ((runChunks (runChunks st l₁).1 l₂).1,
         (runChunks st l₁).2 ++ (runChunks (runChunks st l₁).1 l₂).2) := by
  induction l₁ with
  | nil => intro st; simp [runChunks]
  | cons c cs ih => intro st; simp [runChunks, ih, List.append_assoc]

/-- While mid-transfer with `previousChunk = k`, a run of in-sequence data
chunks (ids `k+1`, `k+2`, …) is accepted: payloads are appended in order
and nothing is emitted. -/
theorem runChunks_dataChunks (ps : List (List Nat)) :
    ∀ (k : Nat) (buf : List Nat),
      runChunks ⟨(k : Int), buf⟩ (dataChunks (k + 1) ps) =
        (⟨((k + ps.length : Nat) : Int), buf ++ ps.flatten⟩, []) := by
  induction ps with
  | nil => intro k buf; simp [dataChunks, runChunks]
  | cons p ps ih =>
    intro k buf
    have h1 : ¬((k : Int) = -1) := by omega
    have h2 : (((k + 1 : Nat) : Int)) = (k : Int) + 1 := by push_cast; ring
    have step : feed ⟨(k : Int), buf⟩ (Chunk.data (k + 1) p)
        = (⟨((k + 1 : Nat) : Int), buf ++ p⟩, none) := by
      simp [feed, onChunk, h1, h2]
    simp only [dataChunks, runChunks, step, Option.toList_none, List.nil_append]
    rw [ih (k + 1) (buf ++ p)]
    simp only [List.flatten_cons, Prod.mk.injEq, ReassemblerState.mk.injEq,
      List.length_cons]
    refine ⟨⟨by push_cast; ring, by simp [List.append_assoc]⟩, trivial⟩

/-- While idle, data chunks whose ids are all nonzero are dropped without
any state change or emission. -/
theorem runChunks_dataChunks_idle (ps : List (List Nat)) :
    ∀ (k : Nat) (buf : List Nat), k ≠ 0 →
      runChunks ⟨-1, buf⟩ (dataChunks k ps) = (⟨-1, buf⟩, []) := by
  induction ps with
  | nil => intro k buf hk; simp [dataChunks, runChunks]
  | cons p ps ih =>
    intro k buf hk
    simp only [dataChunks, runChunks, feed, onChunk]
    simp [hk, ih (k + 1) buf (by omega)]

/-- C1 (amended): for every valid transfer (START id 0, data ids
increasing by exactly 1, one END) whose payload concatenation is
nonempty, exactly one Photo is emitted and it equals the concatenation of
all chunk payloads (chunk 0's included) in arrival order; the initial
idle buffer content is irrelevant.  (If every payload is empty, the END
finds an empty buffer and nothing is emitted — see the counterexample.) -/
theorem C1_valid_transfer (ps : List (List Nat)) (b : List Nat)
    (h : ps ≠ []) (hj : ps.flatten ≠ []) :
    runChunks ⟨-1, b⟩ (transferChunks ps) = (⟨-1, ps.flatten⟩, [ps.flatten]) := by
  cases ps with
  | nil => exact absurd rfl h
  | cons p rest =>
    have start : feed ⟨-1, b⟩ (Chunk.data 0 p) = (⟨0, p⟩, none) := by
      simp [feed, onChunk]
    simp only [transferChunks, dataChunks, List.cons_append]
    simp only [runChunks, start, Option.toList_none, List.nil_append]
    rw [runChunks_append]
    have hd := runChunks_dataChunks rest 0 p
    simp only [Nat.zero_add, Nat.cast_zero] at hd
    rw [hd]
    have h1 : ¬(((rest.length : Nat) : Int) = -1) := by omega
    have h2 : p ++ rest.flatten ≠ [] := by simpa using hj
    simp [runChunks, feed, onChunk, h1, h2]

/-- C1 counterexample: the transfer START(id 0, empty payload) then END
is a valid transfer by the claim's shape, yet no Photo is emitted (the
END sees an empty buffer), refuting the unconditional claim that exactly
one Photo is always emitted. -/
theorem C1_counterexample :
    runChunks ⟨-1, []⟩ (transferChunks [[]]) = (⟨-1, []⟩, []) := by decide

/-- C1 witness: concrete valid transfer with payloads [1,2] and [3]. -/
theorem C1_witness :
    runChunks ⟨-1, [9]⟩ (transferChunks [[1, 2], [3]])
      = (⟨-1, ([[1, 2], [3]] : List (List Nat)).flatten⟩,
         [([[1, 2], [3]] : List (List Nat)).flatten]) :=
  C1_valid_transfer [[1, 2], [3]] [9] (by decide) (by decide)

/-- C2 (amended): a START record (id 0) arriving mid-transfer is handled
as a sequence mismatch: the first transfer's partial buffer is discarded
and the reassembler returns to idle, but the START chunk itself is also
dropped rather than beginning the second transfer; the whole continuation
of the second transfer (ids 1, 2, …, END) is then discarded while idle,
so no Photo at all is emitted.  A Photo again requires a fresh START
observed from the idle state. -/
theorem C2_restart_dropped (k : Nat) (buf : List Nat) (ps : List (List Nat))
    (h : ps ≠ []) :
    runChunks ⟨(k : Int), buf⟩ (transferChunks ps) = (⟨-1, []⟩, []) := by
  cases ps with
  | nil => exact absurd rfl h
  | cons p rest =>
    have h1 : ¬((k : Int) = -1) := by omega
    have h0 : (0 : Int) ≠ (k : Int) + 1 := by omega
    have start : feed ⟨(k : Int), buf⟩ (Chunk.data 0 p) = (⟨-1, []⟩, none) := by
      simp [feed, onChunk, h1, h0]
    simp only [transferChunks, dataChunks, List.cons_append]
    simp only [runChunks, start, Option.toList_none, List.nil_append]
    rw [runChunks_append]
    rw [runChunks_dataChunks_idle rest 1 [] (by omega)]
    simp [runChunks, feed, onChunk]

/-- C2 counterexample: the interleaved stream START(0,[1]), 1:[2],
START(0,[5]), 1:[6], 2:[7], END emits no Photo at all — in particular not
the second transfer's concatenation [5,6,7] that the claim promises. -/
theorem C2_counterexample :
    runChunks ⟨-1, []⟩
      [Chunk.data 0 [1], Chunk.data 1 [2], Chunk.data 0 [5],
       Chunk.data 1 [6], Chunk.data 2 [7], Chunk.endMark]
      = (⟨-1, []⟩, []) := by decide

/-- C2 witness: from mid-transfer state (previousChunk 1, buffer [7]),
an interleaved second transfer with payloads [5], [6] yields no photo and
ends idle with an empty buffer. -/
theorem C2_witness :
    runChunks ⟨((1 : Nat) : Int), [7]⟩ (transferChunks [[5], [6]])
      = (⟨-1, []⟩, []) :=
  C2_restart_dropped 1 [7] [[5], [6]] (by decide)

/-- C3: a mid-transfer data record whose id differs from the expected
next id (previousChunk + 1) emits no Photo, discards the whole buffer,
resets to idle with an empty buffer, and drops the chunk itself — the
resulting state carries neither the chunk's payload nor a started
transfer, so the chunk is not reprocessed as a new START. -/
theorem C3_mismatch_resets (k : Nat) (buf : List Nat) (i : Nat) (p : List Nat)
    (h : (i : Int) ≠ (k : Int) + 1) :
    feed ⟨(k : Int), buf⟩ (Chunk.data i p) = (⟨-1, []⟩, none) := by
  have h1 : ¬((k : Int) = -1) := by omega
  simp [feed, onChunk, h1, h]

/-- C3 witness: expecting id 2 (previousChunk 1), receiving id 3 drops
the buffer [1,2] and the chunk [9] and returns to idle. -/
theorem C3_witness :
    (((3 : Nat) : Int) ≠ ((1 : Nat) : Int) + 1) ∧
      feed ⟨((1 : Nat) : Int), [1, 2]⟩ (Chunk.data 3 [9]) = (⟨-1, []⟩, none) :=
  ⟨by decide, C3_mismatch_resets 1 [1, 2] 3 [9] (by decide)⟩

/-- C8: the photo window never exceeds 10 photos, and pushing onto a
full window of 10 evicts exactly the oldest photo, keeping the others in
arrival order with the new photo appended last. -/
theorem C8_window_bounded (p : List Photo) (x : Photo) :
    (pushPhoto p x).length ≤ 10 ∧
      (p.length = 10 → pushPhoto p x = p.tail ++ [x]) := by
  constructor
  · simp [pushPhoto]
    omega
  · intro h
    rw [pushPhoto, h]
    norm_num [List.drop_one]

/-- C8 witness: pushing an 11th photo onto a full window of 10. -/
theorem C8_witness :
    (pushPhoto [[0], [1], [2], [3], [4], [5], [6], [7], [8], [9]] [10]).length ≤ 10 ∧
      pushPhoto [[0], [1], [2], [3], [4], [5], [6], [7], [8], [9]] [10]
        = ([[0], [1], [2], [3], [4], [5], [6], [7], [8], [9]] : List Photo).tail ++ [[10]] :=
  ⟨(C8_window_bounded [[0], [1], [2], [3], [4], [5], [6], [7], [8], [9]] [10]).1,
   (C8_window_bounded [[0], [1], [2], [3], [4], [5], [6], [7], [8], [9]] [10]).2 (by decide)⟩

/-! ## Agent lemmas and claims -/

/-- A failed configuration check always carries an error message. -/
theorem config_fail_has_message (keys : Keys) (m : AIModel)
    (h : (checkModelConfiguration keys m).configured = false) :
    (checkModelConfiguration keys m).errorMessage.isSome = true := by
  cases m with
  | openaiVision =>
    by_cases hk : keyMissing keys.openai
    · simp [checkModelConfiguration, hk]
    · simp [checkModelConfiguration, hk] at h
  | ollamaMoondream => simp [checkModelConfiguration] at h
  | groqLlama =>
    by_cases hk : keyMissing keys.groq
    · simp [checkModelConfiguration, hk]
    · simp [checkModelConfiguration, hk] at h

/-- C4 (amended): when a new query starts (configured backend, not
already loading), the state in which the query proceeds — the snapshot
after the Loading transition, before any dispatch work — has `loading`
set, `error` cleared, and `answer` still equal to its prior value: only
the error field is cleared when a new query starts; the answer field is
first overwritten when the query completes. -/
theorem C4_loading_transition (keys : Keys) (photos : List Photo) (s : AgentState)
    (o : DispatchOutcome)
    (hc : (checkModelConfiguration keys s.selectedModel).configured = true)
    (hl : s.loading = false) :
    (answerRun keys photos s o).trace.get? 1
      = some { s with loading := true, error := none } := by
  by_cases hp : photos.length = 0 <;> cases o <;>
    simp [answerRun, hc, hl, hp]

/-- C4 counterexample: starting a query from a state whose answer field
holds "old" (Ollama backend, one photo, dispatch succeeds), the snapshot
in which dispatch begins still has `answer = some "old"` — the answer
field is not cleared when the query starts, refuting the claim that both
fields are cleared before dispatch work begins. -/
theorem C4_counterexample :
    (answerRun ⟨none, none⟩ [[1]]
        ⟨none, some "old", false, none, AIModel.ollamaMoondream⟩
        (.success "x")).dispatched = true ∧
      ((answerRun ⟨none, none⟩ [[1]]
          ⟨none, some "old", false, none, AIModel.ollamaMoondream⟩
          (.success "x")).trace.getD 1
            ⟨none, none, false, none, AIModel.ollamaMoondream⟩).answer
        = some "old" :=
  ⟨rfl, rfl⟩

/-- C4 witness: concrete run from an idle Ollama session. -/
theorem C4_witness :
    (answerRun ⟨none, none⟩ []
        ⟨none, none, false, none, AIModel.ollamaMoondream⟩
        (.success "x")).trace.get? 1
      = some { (⟨none, none, false, none, AIModel.ollamaMoondream⟩ : AgentState) with
               loading := true, error := none } :=
  C4_loading_transition ⟨none, none⟩ []
    ⟨none, none, false, none, AIModel.ollamaMoondream⟩ (.success "x") rfl rfl

/-- C5: after every completed query (configured backend, not already
loading — covering dispatch success, dispatch failure and the zero-photos
advisory), exactly one of the final answer and error fields is set: the
success paths clear error, the failure path clears answer. -/
theorem C5_exactly_one (keys : Keys) (photos : List Photo) (s : AgentState)
    (o : DispatchOutcome)
    (hc : (checkModelConfiguration keys s.selectedModel).configured = true)
    (hl : s.loading = false) :
    ((answerRun keys photos s o).final.answer.isSome = true ∧
        (answerRun keys photos s o).final.error = none) ∨
      ((answerRun keys photos s o).final.answer = none ∧
        (answerRun keys photos s o).final.error.isSome = true) := by
  by_cases hp : photos.length = 0 <;> cases o <;>
    simp [answerRun, hc, hl, hp]

/-- C5 witness: concrete completed query (failure outcome, one photo). -/
theorem C5_witness :
    ((answerRun ⟨none, none⟩ [[1]]
          ⟨none, none, false, none, AIModel.ollamaMoondream⟩
          (.failure (some "boom"))).final.answer.isSome = true ∧
        (answerRun ⟨none, none⟩ [[1]]
          ⟨none, none, false, none, AIModel.ollamaMoondream⟩
          (.failure (some "boom"))).final.error = none) ∨
      ((answerRun ⟨none, none⟩ [[1]]
          ⟨none, none, false, none, AIModel.ollamaMoondream⟩
          (.failure (some "boom"))).final.answer = none ∧
        (answerRun ⟨none, none⟩ [[1]]
          ⟨none, none, false, none, AIModel.ollamaMoondream⟩
          (.failure (some "boom"))).final.error.isSome = true) :=
  C5_exactly_one ⟨none, none⟩ [[1]]
    ⟨none, none, false, none, AIModel.ollamaMoondream⟩ (.failure (some "boom")) rfl rfl

/-- C6: when the selected backend fails the configuration check, the
call performs no backend dispatch, sets the error field to the
configuration message (which is always present on failure), and never
sets the loading flag: every state snapshot of the call keeps the initial
loading value. -/
theorem C6_config_error (keys : Keys) (photos : List Photo) (s : AgentState)
    (o : DispatchOutcome)
    (hc : (checkModelConfiguration keys s.selectedModel).configured = false) :
    (answerRun keys photos s o).dispatched = false ∧
      (answerRun keys photos s o).final.error
        = (checkModelConfiguration keys s.selectedModel).errorMessage ∧
      (checkModelConfiguration keys s.selectedModel).errorMessage.isSome = true ∧
      ∀ t ∈ (answerRun keys photos s o).trace, t.loading = s.loading := by
  refine ⟨?_, ?_, config_fail_has_message keys s.selectedModel hc, ?_⟩ <;>
    simp [answerRun, hc]

/-- C6 witness: OpenAI Vision selected with no OpenAI key configured. -/
theorem C6_witness :
    ((checkModelConfiguration ⟨none, some "g"⟩
        (AgentState.selectedModel ⟨none, none, false, none, AIModel.openaiVision⟩)).configured
      = false) ∧
      ((answerRun ⟨none, some "g"⟩ [[1]]
          ⟨none, none, false, none, AIModel.openaiVision⟩ (.success "x")).dispatched = false ∧
        (answerRun ⟨none, some "g"⟩ [[1]]
            ⟨none, none, false, none, AIModel.openaiVision⟩ (.success "x")).final.error
          = (checkModelConfiguration ⟨none, some "g"⟩
              (AgentState.selectedModel
                ⟨none, none, false, none, AIModel.openaiVision⟩)).errorMessage ∧
        (checkModelConfiguration ⟨none, some "g"⟩
            (AgentState.selectedModel
              ⟨none, none, false, none, AIModel.openaiVision⟩)).errorMessage.isSome = true ∧
        ∀ t ∈ (answerRun ⟨none, some "g"⟩ [[1]]
            ⟨none, none, false, none, AIModel.openaiVision⟩ (.success "x")).trace,
          t.loading
            = (AgentState.loading ⟨none, none, false, none, AIModel.openaiVision⟩)) :=
  ⟨rfl, C6_config_error ⟨none, some "g"⟩ [[1]]
    ⟨none, none, false, none, AIModel.openaiVision⟩ (.success "x") rfl⟩

/-- C7 (amended): a call to answer while the session is already Loading
never dispatches to a backend.  If the selected backend passes the
configuration check the call is a complete no-op (state unchanged, no
snapshots); but because the configuration check precedes the loading
guard, a call whose selected backend fails the check still sets the error
field to the configuration message and clears the answer field, even
mid-flight. -/
theorem C7_loading_noop (keys : Keys) (photos : List Photo) (s : AgentState)
    (o : DispatchOutcome) (hl : s.loading = true) :
    (answerRun keys photos s o).dispatched = false ∧
      ((checkModelConfiguration keys s.selectedModel).configured = true →
        (answerRun keys photos s o).final = s ∧
          (answerRun keys photos s o).trace = []) ∧
      ((checkModelConfiguration keys s.selectedModel).configured = false →
        (answerRun keys photos s o).final.error
          = (checkModelConfiguration keys s.selectedModel).errorMessage ∧
        (answerRun keys photos s o).final.answer = none) := by
  by_cases hc : (checkModelConfiguration keys s.selectedModel).configured = true
  · simp [answerRun, hc, hl]
  · have hc' : (checkModelConfiguration keys s.selectedModel).configured = false := by
      simpa using hc
    simp [answerRun, hc', hl]

/-- C7 counterexample: with the OpenAI key absent and OpenAI Vision
selected, a call made while the session is Loading with `answer = some
"a"` changes the state — it clears the answer field (and sets the error
field) — refuting the claim that every call made while Loading leaves
every field unchanged. -/
theorem C7_counterexample :
    ((answerRun ⟨none, some "g"⟩ [[1]]
        ⟨none, some "a", true, none, AIModel.openaiVision⟩
        (.success "x")).final.answer = none) ∧
      ((⟨none, some "a", true, none, AIModel.openaiVision⟩ : AgentState).answer
        = some "a") :=
  ⟨rfl, rfl⟩

/-- C7 witness: configured backend (Ollama), session already Loading. -/
theorem C7_witness :
    (answerRun ⟨none, none⟩ [[1]]
        ⟨none, some "a", true, none, AIModel.ollamaMoondream⟩
        (.success "x")).dispatched = false ∧
      ((checkModelConfiguration ⟨none, none⟩
          (AgentState.selectedModel
            ⟨none, some "a", true, none, AIModel.ollamaMoondream⟩)).configured = true →
        (answerRun ⟨none, none⟩ [[1]]
            ⟨none, some "a", true, none, AIModel.ollamaMoondream⟩
            (.success "x")).final
          = ⟨none, some "a", true, none, AIModel.ollamaMoondream⟩ ∧
          (answerRun ⟨none, none⟩ [[1]]
            ⟨none, some "a", true, none, AIModel.ollamaMoondream⟩
            (.success "x")).trace = []) ∧
      ((checkModelConfiguration ⟨none, none⟩
          (AgentState.selectedModel
            ⟨none, some "a", true, none, AIModel.ollamaMoondream⟩)).configured = false →
        (answerRun ⟨none, none⟩ [[1]]
            ⟨none, some "a", true, none, AIModel.ollamaMoondream⟩
            (.success "x")).final.error
          = (checkModelConfiguration ⟨none, none⟩
              (AgentState.selectedModel
                ⟨none, some "a", true, none, AIModel.ollamaMoondream⟩)).errorMessage ∧
        (answerRun ⟨none, none⟩ [[1]]
            ⟨none, some "a", true, none, AIModel.ollamaMoondream⟩
            (.success "x")).final.answer = none) :=
  C7_loading_noop ⟨none, none⟩ [[1]]
    ⟨none, some "a", true, none, AIModel.ollamaMoondream⟩ (.success "x") rfl

/-- C9: a call with a configured backend, no query in flight and an
empty photo sequence sets the answer field to the fixed advisory message,
leaves the error field unset, and performs no backend dispatch. -/
theorem C9_no_photos (keys : Keys) (s : AgentState) (o : DispatchOutcome)
    (hc : (checkModelConfiguration keys s.selectedModel).configured = true)
    (hl : s.loading = false) :
    (answerRun keys [] s o).final.answer = some noPhotosMsg ∧
      (answerRun keys [] s o).final.error = none ∧
      (answerRun keys [] s o).dispatched = false := by
  simp [answerRun, hc, hl]

/-- C9 witness: idle Ollama session with an empty photo window. -/
theorem C9_witness :
    (answerRun ⟨none, none⟩ []
        ⟨none, none, false, none, AIModel.ollamaMoondream⟩
        (.success "x")).final.answer = some noPhotosMsg ∧
      (answerRun ⟨none, none⟩ []
          ⟨none, none, false, none, AIModel.ollamaMoondream⟩
          (.success "x")).final.error = none ∧
      (answerRun ⟨none, none⟩ []
          ⟨none, none, false, none, AIModel.ollamaMoondream⟩
          (.success "x")).dispatched = false :=
  C9_no_photos ⟨none, none⟩ ⟨none, none, false, none, AIModel.ollamaMoondream⟩
    (.success "x") rfl rfl

/-- C10: the local Ollama variant always passes the configuration check,
whatever keys are present or absent, so an answer call with it selected
never takes the configuration-error path. -/
theorem C10_ollama_always_configured (keys : Keys) :
    checkModelConfiguration keys AIModel.ollamaMoondream = ⟨true, none⟩ :=
  rfl

/-- C10 witness: both keys absent and the check still passes. -/
theorem C10_witness :
    checkModelConfiguration ⟨none, none⟩ AIModel.ollamaMoondream = ⟨true, none⟩ :=
  C10_ollama_always_configured ⟨none, none⟩

end OpenGlass
